import Mathlib

/-!
Shallow embedding of src/extras/kdf-keys/pbkdf2.c (the Tomb pbkdf2 helper).

The C program is a single `main` with helpers `print_hex`, `hex_to_binary`
and `cleanup`.  We model bytes as `Nat` (values meant to be < 256; the C
types `char` / `unsigned char` guarantee this at the boundaries we use),
pointers-plus-lengths as `List Nat`, and the process as a pure function
from its inputs (argv, stdin bytes, the scheduler-ish oracles for
allocation success and libgcrypt availability, and the external KDF
primitive as a function parameter) to a record of observable outcomes.

Modelling notes, tied to the C source:
* `sscanf(s, "%2x", ...)` / `sscanf(s, "%1x", ...)` are modelled after the
  C11 subject sequence of strtoul base 16: skip leading whitespace (not
  counted toward the field width), read an optional + or - sign (counted
  toward the width), then up to the remaining width hexadecimal digits
  (maximal munch); matching failure (return 0) and input failure (EOF)
  both fail the `ret != 1` test in `hex_to_binary`, so `scanHex` returns
  `Option Nat`, the value being the unsigned 32-bit integer the sign and
  digits denote.  The 0x prefix is not treated specially: a group
  starting 0x parses as the single digit 0 here (as it does in glibc,
  where "%2x" on "0x" yields 0).
* `hex_to_binary` stores each scanned value through an `unsigned int`
  pointer cast; on the little-endian targets the buffer over-allocation
  (+3) is designed for, the byte that survives at each position once the
  following groups are written is the value's low byte, `v % 256`.
* `sscanf(s, "%d", ...)` is modelled with the three C outcomes kept apart
  (`ScanD.ok v` for return 1, `ScanD.fail` for return 0, `ScanD.eof` for
  return EOF), because `main` tests `== 0` and relies on the destination
  variable being unchanged otherwise.
* `char c = getchar()` stores the byte in a signed 8-bit `char`; byte 0xFF
  becomes -1 and the `while (c != EOF)` test then stops the read.  Hence
  `readBytes` keeps the stdin prefix before the first 0xFF byte.
* `realloc` is modelled as relocating the allocation (the behaviour the C
  standard permits): the old region's bytes, never zeroized by the
  program, are recorded in the `lost` list; on realloc failure the old
  region is abandoned with its contents (the C code overwrites the only
  pointer to it with NULL).
* the unchecked `calloc` calls are modelled as succeeding; only the
  checked `realloc` in the read loop has a failure oracle.
* `int result_len` is uninitialized; it is read when `sscanf` on argv[3]
  returns EOF, so the model takes that garbage value as the explicit
  parameter `uninit`.
-/

/-- Whitespace in the sense of `isspace` used by `sscanf` conversions
(space and the control characters 9..13). -/
def isWs (c : Char) : Bool :=
  decide (c.toNat = 32 ∨ (9 ≤ c.toNat ∧ c.toNat ≤ 13))

/-- Value of one hexadecimal digit character, as recognised by `%x`. -/
def hexVal (c : Char) : Option Nat :=
  if 48 ≤ c.toNat ∧ c.toNat ≤ 57 then some (c.toNat - 48)
  else if 97 ≤ c.toNat ∧ c.toNat ≤ 102 then some (c.toNat - 87)
  else if 65 ≤ c.toNat ∧ c.toNat ≤ 70 then some (c.toNat - 55)
  else none

/-- Up to `w` leading hexadecimal digit values of a string (maximal munch
within the `sscanf` field width). -/
def hexDigitsTake : Nat → List Char → List Nat
  | 0, _ => []
  | _, [] => []
  | w + 1, c :: cs =>
    match hexVal c with
    | some v => v :: hexDigitsTake w cs
    | none => []

/-- Model of `sscanf(s, "%Wx", &u) == 1 ? some u : none` for field width
`W`: skip whitespace, then an optional sign counting toward the width,
then munch up to the remaining width in hex digits; fail when no digit is
read.  The value is what the `unsigned int` destination receives: for a
minus sign, the two's-complement (strtoul-style) negation mod 2^32. -/
def scanHex (w : Nat) (s : List Char) : Option Nat :=
  match s.dropWhile isWs with
  | [] => none
  | c :: cs =>
    if c.toNat = 45 ∨ c.toNat = 43 then
      let ds := hexDigitsTake (w - 1) cs
      if ds = [] then none
      else
        let v := ds.foldl (fun a d => 16 * a + d) 0
        some (if c.toNat = 45 then (2 ^ 32 - v % 2 ^ 32) % 2 ^ 32 else v)
    else
      let ds := hexDigitsTake w (c :: cs)
      if ds = [] then none
      else some (ds.foldl (fun a d => 16 * a + d) 0)

/-- Embedding of `hex_to_binary` (pbkdf2.c lines 60-78): scan `%2x` and
advance the text by two characters while at least two remain, else scan the
final character with `%1x`; each scanned value is stored through a 4-byte
little-endian `unsigned int` write, of which the low byte `v % 256`
survives at the output position; any scan with return value different
from 1 aborts with -1, here `none`. -/
def hex_to_binary : List Char → Option (List Nat)
  | [] => some []
  | [c] =>
    match scanHex 1 [c] with
    | some v => some [v % 256]
    | none => none
  | c1 :: c2 :: rest =>
    match scanHex 2 (c1 :: c2 :: rest) with
    | some v =>
      match hex_to_binary rest with
      | some vs => some (v % 256 :: vs)
      | none => none
    | none => none

/-- Two lowercase hexadecimal digits of a byte, as `printf("%02x", b)`
renders a value < 256. -/
def hexPair (b : Nat) : List Char :=
  [Nat.digitChar (b / 16), Nat.digitChar (b % 16)]

/-- The digit part of `print_hex` (pbkdf2.c lines 51-58): each byte as two
lowercase hex digits, concatenated in input order, no separators. -/
def hex_of_bytes : List Nat → List Char
  | [] => []
  | b :: bs => hexPair b ++ hex_of_bytes bs

/-- Embedding of `print_hex`: the hex digits followed by one newline. -/
def print_hex (bs : List Nat) : List Char :=
  hex_of_bytes bs ++ [Char.ofNat 10]

/-- Value of one decimal digit character. -/
def digitVal (c : Char) : Option Nat :=
  if 48 ≤ c.toNat ∧ c.toNat ≤ 57 then some (c.toNat - 48) else none

/-- Leading decimal digit values of a string (maximal munch). -/
def decDigitsTake : List Char → List Nat
  | [] => []
  | c :: cs =>
    match digitVal c with
    | some v => v :: decDigitsTake cs
    | none => []

/-- The three outcomes of `sscanf(s, "%d", &v)`: return 1 with a value,
return 0 (matching failure), or return EOF (input failure). -/
inductive ScanD where
  | ok (v : Int)
  | fail
  | eof
  deriving DecidableEq

/-- Model of `sscanf(s, "%d", &v)`: skip whitespace; EOF if the string is
then exhausted; consume an optional sign; matching failure if no decimal
digit follows; otherwise the signed value of the digit run. -/
def sscanf_d (s : List Char) : ScanD :=
  match s.dropWhile isWs with
  | [] => ScanD.eof
  | c :: cs =>
    let body := if c.toNat = 45 ∨ c.toNat = 43 then cs else c :: cs
    let ds := decDigitsTake body
    if ds = [] then ScanD.fail
    else
      let v : Int := Int.ofNat (ds.foldl (fun a d => 10 * a + d) 0)
      ScanD.ok (if c.toNat = 45 then -v else v)

/-- The destination variable after an `sscanf` call: updated only when the
conversion succeeded (return 1), otherwise it keeps its previous value. -/
def scanGet (r : ScanD) (prev : Int) : Int :=
  match r with
  | ScanD.ok v => v
  | _ => prev

/-- C `strlen` on the byte list of a buffer: length of the prefix before
the first null byte. -/
def cstrlen (buf : List Nat) : Nat :=
  (buf.takeWhile (fun b => decide (b ≠ 0))).length

/-- Overwrite the first `n` bytes of a region with zero (the
fixed-bound `for(i=0; i<n; i++) p[i]=0;` loops of `cleanup`). -/
def zeroFirst (n : Nat) (buf : List Nat) : List Nat :=
  List.replicate (min n buf.length) 0 ++ buf.drop n

/-- The passphrase blanking loop `for(i=0; i<strlen(pass); i++) pass[i]=0;`
of `cleanup`: the loop condition re-evaluates `strlen(pass)` on every
iteration, and the first iteration sets `pass[0]=0`, after which
`strlen(pass)` is 0 — so the loop blanks at most one byte: the first byte
when it is non-null, nothing otherwise. -/
def blankPass (p : List Nat) : List Nat :=
  zeroFirst (min 1 (cstrlen p)) p

/-- Embedding of `cleanup` (pbkdf2.c lines 80-99): for each non-NULL
region, the bytes it holds at the moment `free` is called.  The result
region is zeroed over `result_len` bytes and the salt region over
`salt_len` bytes (fixed integer bounds); the passphrase region goes
through `blankPass`, whose `strlen`-bounded loop stops after the first
byte is zeroed. -/
def cleanup (result : Option (List Nat)) (result_len : Nat)
    (pass : Option (List Nat)) (salt : Option (List Nat)) (salt_len : Nat) :
    Option (List Nat) × Option (List Nat) × Option (List Nat) :=
  (result.map (zeroFirst result_len),
   pass.map blankPass,
   salt.map (zeroFirst salt_len))

/-- Bytes delivered by the `getchar` loop (pbkdf2.c lines 143-157): the
result of `getchar` is stored in a signed 8-bit `char`, so byte 0xFF
becomes -1 and the `c != EOF` test stops the loop at the first 0xFF byte
as well as at real end-of-stream. -/
def readBytes (stdin : List Nat) : List Nat :=
  stdin.takeWhile (fun b => decide (b ≠ 255))

/-- State of the password read loop: bytes stored so far (`pw_len` is
`buf.length`), current allocation size `buff_len`, how many `realloc`
calls happened, and the contents of every region the program freed or
abandoned without zeroizing it. -/
structure ReadState where
  buf : List Nat
  buffLen : Nat
  reallocs : Nat
  lost : List (List Nat)
  deriving DecidableEq

/-- Outcome of the read loop: normal completion, or `realloc` failure
(the path that prints the allocation error and exits 3). -/
inductive ReadResult where
  | ok (st : ReadState)
  | allocFail (st : ReadState)
  deriving DecidableEq

/-- The password read loop over the bytes `readBytes` delivers.  When
`pw_len == buff_len` the buffer is grown by doubling via `realloc`;
a successful `realloc` relocates the data and the old region is freed
with its secret bytes intact (recorded in `lost`); a failed `realloc`
leaves the old region allocated but unreachable (`pass` is overwritten
with NULL), also recorded in `lost`. -/
def readLoop (reallocOk : Nat → Bool) : List Nat → ReadState → ReadResult
  | [], st => ReadResult.ok st
  | b :: bs, st =>
    if st.buf.length = st.buffLen then
      if reallocOk st.reallocs then
        readLoop reallocOk bs
          { buf := st.buf ++ [b], buffLen := 2 * st.buffLen,
            reallocs := st.reallocs + 1, lost := st.lost ++ [st.buf] }
      else
        ReadResult.allocFail { st with lost := st.lost ++ [st.buf] }
    else
      readLoop reallocOk bs { st with buf := st.buf ++ [b] }

/-- Initial read state: `calloc(BLOCK_SIZE, 1)` with `BLOCK_SIZE = 40`. -/
def initState : ReadState :=
  { buf := [], buffLen := 40, reallocs := 0, lost := [] }

/-- Pad or truncate the external KDF output to the `result_len`-byte
`calloc`-ed result buffer it is written into. -/
def padTo (n : Nat) (l : List Nat) : List Nat :=
  l.take n ++ List.replicate (n - l.length) 0

/-- Error category of a run, used to tell the distinct diagnostic
messages apart (each is printed to stderr in the C code). -/
inductive ErrKind where
  | usage
  | invalidSalt
  | invalidCount
  | invalidLen
  | emptyPass
  | allocFail
  | gcryFail
  deriving DecidableEq

/-- Observable outcome of one process run: exit code, error category,
bytes written to stdout, the `gcry_kdf_derive` call if one happened
(passphrase bytes, salt bytes, iteration count, output length), whether
`cleanup` ran, the contents of the passphrase and result regions at the
moment `cleanup` freed them, and the regions lost un-zeroized. -/
structure RunResult where
  exitCode : Nat
  err : Option ErrKind
  stdout : List Char
  kdfCall : Option (List Nat × List Nat × Int × Int)
  cleanupRan : Bool
  passReleased : Option (List Nat)
  resultReleased : Option (List Nat)
  lost : List (List Nat)
  deriving DecidableEq

/-- The phase of `main` after argument validation (pbkdf2.c lines
135-187): read the password, strip the final byte, check libgcrypt,
derive, print, cleanup. -/
def postValidate (salt : List Nat) (ic rlen : Int) (stdin : List Nat)
    (reallocOk : Nat → Bool) (gcryOk : Bool)
    (kdf : List Nat → List Nat → Int → Int → List Nat) : RunResult :=
  match readLoop reallocOk (readBytes stdin) initState with
  | ReadResult.allocFail st =>
    let cl := cleanup none rlen.toNat none (some salt) salt.length
    { exitCode := 3, err := some ErrKind.allocFail, stdout := [],
      kdfCall := none, cleanupRan := true,
      passReleased := cl.2.1, resultReleased := cl.1, lost := st.lost }
  | ReadResult.ok st =>
    if st.buf.length ≤ 1 then
      let cl := cleanup none rlen.toNat (some st.buf) (some salt) salt.length
      { exitCode := 1, err := some ErrKind.emptyPass, stdout := [],
        kdfCall := none, cleanupRan := true,
        passReleased := cl.2.1, resultReleased := cl.1, lost := st.lost }
    else
      let pass := st.buf.set (st.buf.length - 1) 0
      let n := rlen.toNat
      if gcryOk = false then
        let cl := cleanup (some (List.replicate n 0)) n (some pass)
          (some salt) salt.length
        { exitCode := 2, err := some ErrKind.gcryFail, stdout := [],
          kdfCall := none, cleanupRan := true,
          passReleased := cl.2.1, resultReleased := cl.1, lost := st.lost }
      else
        let pc := pass.take (st.buf.length - 1)
        let resultBuf := padTo n (kdf pc salt ic rlen)
        let cl := cleanup (some resultBuf) n (some pass) (some salt) salt.length
        { exitCode := 0, err := none,
          stdout := print_hex resultBuf,
          kdfCall := some (pc, salt, ic, rlen), cleanupRan := true,
          passReleased := cl.2.1, resultReleased := cl.1, lost := st.lost }

/-- An exit before any secret buffer exists (wrong argument count, bad
salt, bad count/length): diagnostic to stderr, no stdout, no cleanup. -/
def earlyExit (code : Nat) (e : ErrKind) : RunResult :=
  { exitCode := code, err := some e, stdout := [],
    kdfCall := none, cleanupRan := false,
    passReleased := none, resultReleased := none, lost := [] }

/-- The body of `main` once the three arguments exist: decode the salt
(`salt_len <= 0` is the invalid-salt exit), scan the count and length with
`%d` (`sscanf(...) == 0 || value <= 0` is the invalid-parameter exit;
`ic` starts at 0, `result_len` starts at the garbage value `uninit`),
then the post-validation phase. -/
def mainArgs (a1 a2 a3 : String) (stdin : List Nat) (uninit : Int)
    (reallocOk : Nat → Bool) (gcryOk : Bool)
    (kdf : List Nat → List Nat → Int → Int → List Nat) : RunResult :=
  match hex_to_binary a1.toList with
  | none => earlyExit 1 ErrKind.invalidSalt
  | some salt =>
    if salt.length = 0 then earlyExit 1 ErrKind.invalidSalt
    else
      let r2 := sscanf_d a2.toList
      let ic := scanGet r2 0
      if r2 = ScanD.fail ∨ ic ≤ 0 then earlyExit 1 ErrKind.invalidCount
      else
        let r3 := sscanf_d a3.toList
        let rlen := scanGet r3 uninit
        if r3 = ScanD.fail ∨ rlen ≤ 0 then earlyExit 1 ErrKind.invalidLen
        else postValidate salt ic rlen stdin reallocOk gcryOk kdf

/-- Embedding of `main` (pbkdf2.c lines 101-187).  `argv` holds the user
arguments after the program name; `argc != 4` is the usage exit (code 10);
`uninit` is the garbage value of the uninitialized `int result_len`, read
only when `sscanf` on argv[3] returns EOF; `reallocOk`, `gcryOk` and `kdf`
are the environment oracles described above. -/
def mainRun (argv : List String) (stdin : List Nat) (uninit : Int)
    (reallocOk : Nat → Bool) (gcryOk : Bool)
    (kdf : List Nat → List Nat → Int → Int → List Nat) : RunResult :=
  match argv with
  | [a1, a2, a3] => mainArgs a1 a2 a3 stdin uninit reallocOk gcryOk kdf
  | _ => earlyExit 10 ErrKind.usage

/-- A stand-in for the external `gcry_kdf_derive` primitive, used to
instantiate the `kdf` parameter in closed statements. -/
def zkdf : List Nat → List Nat → Int → Int → List Nat :=
  fun _ _ _ n => List.replicate n.toNat 0

/-! ### Hex codec lemmas -/

/-- Decoding by two-digit groups as the specification words it: two hex
digits at a time into one byte, a final odd digit as a one-digit value. -/
def groupPairs : List Char → List Nat
  | [] => []
  | [c] => [(hexVal c).getD 0]
  | c1 :: c2 :: rest =>
    (16 * (hexVal c1).getD 0 + (hexVal c2).getD 0) :: groupPairs rest

theorem hexVal_isSome_not_ws {c : Char} (h : (hexVal c).isSome) :
    isWs c = false := by
  unfold hexVal at h
  simp only [isWs, decide_eq_false_iff_not]
  split_ifs at h with h1 h2 h3
  · omega
  · omega
  · omega
  · simp at h

theorem hexVal_isSome_not_sign {c : Char} (h : (hexVal c).isSome) :
    ¬ (c.toNat = 45 ∨ c.toNat = 43) := by
  unfold hexVal at h
  split_ifs at h with h1 h2 h3
  · omega
  · omega
  · omega
  · simp at h

theorem hexVal_lt_16 {c : Char} {v : Nat} (h : hexVal c = some v) : v < 16 := by
  unfold hexVal at h
  split_ifs at h with h1 h2 h3
  · rw [← Option.some.inj h]
    omega
  · rw [← Option.some.inj h]
    omega
  · rw [← Option.some.inj h]
    omega

theorem sign_not_ws {c : Char} (h : c.toNat = 45 ∨ c.toNat = 43) :
    isWs c = false := by
  simp only [isWs, decide_eq_false_iff_not]
  omega

theorem scanHex_one {c : Char} {v : Nat} (h : hexVal c = some v) :
    scanHex 1 [c] = some v := by
  have hw : isWs c = false := hexVal_isSome_not_ws (by simp [h])
  have hs : ¬ (c.toNat = 45 ∨ c.toNat = 43) := hexVal_isSome_not_sign (by simp [h])
  simp [scanHex, List.dropWhile_cons, hw, hs, hexDigitsTake, h]

theorem scanHex_two {c1 c2 : Char} {v1 v2 : Nat} (r : List Char)
    (h1 : hexVal c1 = some v1) (h2 : hexVal c2 = some v2) :
    scanHex 2 (c1 :: c2 :: r) = some (16 * v1 + v2) := by
  have hw : isWs c1 = false := hexVal_isSome_not_ws (by simp [h1])
  have hs : ¬ (c1.toNat = 45 ∨ c1.toNat = 43) :=
    hexVal_isSome_not_sign (by simp [h1])
  simp [scanHex, List.dropWhile_cons, hw, hs, hexDigitsTake, h1, h2]

theorem scanHex_two_bad {c1 c2 : Char} {v1 : Nat} (r : List Char)
    (h1 : hexVal c1 = some v1) (h2 : hexVal c2 = none) :
    scanHex 2 (c1 :: c2 :: r) = some v1 := by
  have hw : isWs c1 = false := hexVal_isSome_not_ws (by simp [h1])
  have hs : ¬ (c1.toNat = 45 ∨ c1.toNat = 43) :=
    hexVal_isSome_not_sign (by simp [h1])
  simp [scanHex, List.dropWhile_cons, hw, hs, hexDigitsTake, h1, h2]

theorem scanHex_none {c : Char} (w : Nat) (r : List Char)
    (h : hexVal c = none) (hw : isWs c = false)
    (hs : ¬ (c.toNat = 45 ∨ c.toNat = 43)) :
    scanHex (w + 1) (c :: r) = none := by
  simp [scanHex, List.dropWhile_cons, hw, hs, hexDigitsTake, h]

theorem scanHex_sign_neg {c1 c2 : Char} {v2 : Nat} (r : List Char)
    (h1 : c1.toNat = 45) (h2 : hexVal c2 = some v2) :
    scanHex 2 (c1 :: c2 :: r) = some ((2 ^ 32 - v2 % 2 ^ 32) % 2 ^ 32) := by
  have hw : isWs c1 = false := sign_not_ws (Or.inl h1)
  simp [scanHex, List.dropWhile_cons, hw, h1, hexDigitsTake, h2]

theorem scanHex_sign_pos {c1 c2 : Char} {v2 : Nat} (r : List Char)
    (h1 : c1.toNat = 43) (h2 : hexVal c2 = some v2) :
    scanHex 2 (c1 :: c2 :: r) = some v2 := by
  have hw : isWs c1 = false := sign_not_ws (Or.inr h1)
  simp [scanHex, List.dropWhile_cons, hw, h1, hexDigitsTake, h2]

theorem scanHex_sign_bad {c1 c2 : Char} (r : List Char)
    (h1 : c1.toNat = 45 ∨ c1.toNat = 43) (h2 : hexVal c2 = none) :
    scanHex 2 (c1 :: c2 :: r) = none := by
  have hw : isWs c1 = false := sign_not_ws h1
  rcases h1 with h1 | h1 <;>
    simp [scanHex, List.dropWhile_cons, hw, h1, hexDigitsTake, h2]

theorem scanHex_lone_sign {c : Char}
    (h : c.toNat = 45 ∨ c.toNat = 43) :
    scanHex 1 [c] = none := by
  have hw : isWs c = false := sign_not_ws h
  rcases h with h | h <;>
    simp [scanHex, List.dropWhile_cons, hw, h, hexDigitsTake]

theorem scanHex_ws_skip (w : Nat) (pre t : List Char)
    (hp : ∀ c ∈ pre, isWs c = true) :
    scanHex w (pre ++ t) = scanHex w t := by
  have hd : (pre ++ t).dropWhile isWs = t.dropWhile isWs := by
    induction pre with
    | nil => simp
    | cons c cs ih =>
      simp only [List.cons_append, List.dropWhile_cons, hp c (by simp),
        if_true]
      exact ih (fun x hx => hp x (by simp [hx]))
  simp [scanHex, hd]

theorem hex_to_binary_all_hex :
    ∀ s : List Char, (∀ c ∈ s, (hexVal c).isSome) →
      hex_to_binary s = some (groupPairs s)
  | [], _ => rfl
  | [c], h => by
    obtain ⟨v, hv⟩ := Option.isSome_iff_exists.mp (h c (by simp))
    have hlt : v < 16 := hexVal_lt_16 hv
    simp [hex_to_binary, scanHex_one hv, groupPairs, hv,
      Nat.mod_eq_of_lt (by omega : v < 256)]
  | c1 :: c2 :: rest, h => by
    obtain ⟨v1, hv1⟩ := Option.isSome_iff_exists.mp (h c1 (by simp))
    obtain ⟨v2, hv2⟩ := Option.isSome_iff_exists.mp (h c2 (by simp))
    have hlt1 : v1 < 16 := hexVal_lt_16 hv1
    have hlt2 : v2 < 16 := hexVal_lt_16 hv2
    have ih := hex_to_binary_all_hex rest (fun c hc => h c (by simp [hc]))
    simp [hex_to_binary, scanHex_two rest hv1 hv2, ih, groupPairs, hv1, hv2,
      Nat.mod_eq_of_lt (by omega : 16 * v1 + v2 < 256)]

theorem groupPairs_length :
    ∀ s : List Char, (groupPairs s).length = (s.length + 1) / 2
  | [] => rfl
  | [c] => by
    have h1 : (groupPairs [c]).length = 1 := rfl
    rw [h1]
    norm_num
  | _ :: _ :: rest => by
    simp [groupPairs, groupPairs_length rest]
    omega

theorem hexVal_digitChar : ∀ n < 16, hexVal (Nat.digitChar n) = some n := by
  decide

theorem hex_to_binary_hex_of_bytes :
    ∀ bs : List Nat, (∀ b ∈ bs, b < 256) →
      hex_to_binary (hex_of_bytes bs) = some bs
  | [], _ => rfl
  | b :: bs, h => by
    have hb : b < 256 := h b (by simp)
    have h1 : hexVal (Nat.digitChar (b / 16)) = some (b / 16) :=
      hexVal_digitChar _ (by omega)
    have h2 : hexVal (Nat.digitChar (b % 16)) = some (b % 16) :=
      hexVal_digitChar _ (by omega)
    have ih := hex_to_binary_hex_of_bytes bs (fun x hx => h x (by simp [hx]))
    show hex_to_binary
      (Nat.digitChar (b / 16) :: Nat.digitChar (b % 16) :: hex_of_bytes bs) = _
    have hb16 : (16 * (b / 16) + b % 16) % 256 = b := by omega
    simp [hex_to_binary, scanHex_two _ h1 h2, ih, hb16]

theorem hex_of_bytes_length :
    ∀ bs : List Nat, (hex_of_bytes bs).length = 2 * bs.length
  | [] => rfl
  | b :: bs => by
    simp [hex_of_bytes, hexPair, hex_of_bytes_length bs]
    omega

theorem digitChar_lower : ∀ n < 16,
    (48 ≤ (Nat.digitChar n).toNat ∧ (Nat.digitChar n).toNat ≤ 57) ∨
    (97 ≤ (Nat.digitChar n).toNat ∧ (Nat.digitChar n).toNat ≤ 102) := by
  decide

theorem hex_of_bytes_lower :
    ∀ bs : List Nat, (∀ b ∈ bs, b < 256) →
      ∀ c ∈ hex_of_bytes bs,
        (48 ≤ c.toNat ∧ c.toNat ≤ 57) ∨ (97 ≤ c.toNat ∧ c.toNat ≤ 102)
  | [], _ => by simp [hex_of_bytes]
  | b :: bs, h => by
    intro c hc
    have hb : b < 256 := h b (by simp)
    have ih := hex_of_bytes_lower bs (fun x hx => h x (by simp [hx]))
    rw [show hex_of_bytes (b :: bs) = hexPair b ++ hex_of_bytes bs from rfl] at hc
    rcases List.mem_append.mp hc with hc | hc
    · simp only [hexPair, List.mem_cons, List.mem_singleton] at hc
      rcases hc with rfl | hc
      · exact digitChar_lower _ (by omega)
      · rcases hc with rfl | hc
        · exact digitChar_lower _ (by omega)
        · simp at hc
    · exact ih c hc

/-! ### Driver lemmas -/

theorem mainRun_usage (argv : List String) (stdin : List Nat) (uninit : Int)
    (rok : Nat → Bool) (g : Bool)
    (kdf : List Nat → List Nat → Int → Int → List Nat)
    (h : argv.length ≠ 3) :
    mainRun argv stdin uninit rok g kdf = earlyExit 10 ErrKind.usage := by
  rcases argv with _ | ⟨x, _ | ⟨y, _ | ⟨z, _ | ⟨w, t⟩⟩⟩⟩
  · rfl
  · rfl
  · rfl
  · exact absurd rfl h
  · rfl

theorem mainArgs_bad_salt (a1 a2 a3 : String) (stdin : List Nat)
    (uninit : Int) (rok : Nat → Bool) (g : Bool)
    (kdf : List Nat → List Nat → Int → Int → List Nat)
    (h : hex_to_binary a1.toList = none ∨ hex_to_binary a1.toList = some []) :
    mainArgs a1 a2 a3 stdin uninit rok g kdf = earlyExit 1 ErrKind.invalidSalt := by
  rcases h with h | h
  · simp only [mainArgs, h]
  · simp only [mainArgs, h]
    simp

theorem mainArgs_bad_count (a1 a2 a3 : String) (stdin : List Nat)
    (uninit : Int) (rok : Nat → Bool) (g : Bool)
    (kdf : List Nat → List Nat → Int → Int → List Nat) (s : List Nat)
    (h1 : hex_to_binary a1.toList = some s) (h2 : s ≠ [])
    (h3 : sscanf_d a2.toList = ScanD.fail ∨ scanGet (sscanf_d a2.toList) 0 ≤ 0) :
    mainArgs a1 a2 a3 stdin uninit rok g kdf = earlyExit 1 ErrKind.invalidCount := by
  have h2' : ¬ (s.length = 0) := by simpa [List.length_eq_zero] using h2
  simp only [mainArgs, h1]
  rw [if_neg h2', if_pos h3]

theorem mainArgs_bad_len (a1 a2 a3 : String) (stdin : List Nat)
    (uninit : Int) (rok : Nat → Bool) (g : Bool)
    (kdf : List Nat → List Nat → Int → Int → List Nat) (s : List Nat) (v2 : Int)
    (h1 : hex_to_binary a1.toList = some s) (h2 : s ≠ [])
    (h3 : sscanf_d a2.toList = ScanD.ok v2) (h4 : 0 < v2)
    (h5 : sscanf_d a3.toList = ScanD.fail ∨
      scanGet (sscanf_d a3.toList) uninit ≤ 0) :
    mainArgs a1 a2 a3 stdin uninit rok g kdf = earlyExit 1 ErrKind.invalidLen := by
  have h2' : ¬ (s.length = 0) := by simpa [List.length_eq_zero] using h2
  have h4' : ¬ (ScanD.ok v2 = ScanD.fail ∨ scanGet (ScanD.ok v2) 0 ≤ 0) := by
    simp [scanGet]
    omega
  simp only [mainArgs, h1, h3]
  rw [if_neg h2', if_neg h4', if_pos h5]

theorem mainArgs_valid (a1 a2 a3 : String) (stdin : List Nat)
    (uninit : Int) (rok : Nat → Bool) (g : Bool)
    (kdf : List Nat → List Nat → Int → Int → List Nat)
    (s : List Nat) (v2 v3 : Int)
    (h1 : hex_to_binary a1.toList = some s) (h2 : s ≠ [])
    (h3 : sscanf_d a2.toList = ScanD.ok v2) (h4 : 0 < v2)
    (h5 : sscanf_d a3.toList = ScanD.ok v3) (h6 : 0 < v3) :
    mainArgs a1 a2 a3 stdin uninit rok g kdf =
      postValidate s v2 v3 stdin rok g kdf := by
  have h2' : ¬ (s.length = 0) := by simpa [List.length_eq_zero] using h2
  have h4' : ¬ (ScanD.ok v2 = ScanD.fail ∨ scanGet (ScanD.ok v2) 0 ≤ 0) := by
    simp [scanGet]
    omega
  have h6' : ¬ (ScanD.ok v3 = ScanD.fail ∨ scanGet (ScanD.ok v3) uninit ≤ 0) := by
    simp [scanGet]
    omega
  simp only [mainArgs, h1, h3, h5]
  rw [if_neg h2', if_neg h4', if_neg h6']
  rfl

theorem mainArgs_valid_eof (a1 a2 a3 : String) (stdin : List Nat)
    (uninit : Int) (rok : Nat → Bool) (g : Bool)
    (kdf : List Nat → List Nat → Int → Int → List Nat)
    (s : List Nat) (v2 : Int)
    (h1 : hex_to_binary a1.toList = some s) (h2 : s ≠ [])
    (h3 : sscanf_d a2.toList = ScanD.ok v2) (h4 : 0 < v2)
    (h5 : sscanf_d a3.toList = ScanD.eof) (h6 : 0 < uninit) :
    mainArgs a1 a2 a3 stdin uninit rok g kdf =
      postValidate s v2 uninit stdin rok g kdf := by
  have h2' : ¬ (s.length = 0) := by simpa [List.length_eq_zero] using h2
  have h4' : ¬ (ScanD.ok v2 = ScanD.fail ∨ scanGet (ScanD.ok v2) 0 ≤ 0) := by
    simp [scanGet]
    omega
  have h6' : ¬ (ScanD.eof = ScanD.fail ∨ scanGet ScanD.eof uninit ≤ 0) := by
    simp [scanGet]
    omega
  simp only [mainArgs, h1, h3, h5]
  rw [if_neg h2', if_neg h4', if_neg h6']
  rfl

theorem postValidate_allocFail (salt : List Nat) (ic rlen : Int)
    (stdin : List Nat) (rok : Nat → Bool) (g : Bool)
    (kdf : List Nat → List Nat → Int → Int → List Nat) (st : ReadState)
    (hr : readLoop rok (readBytes stdin) initState = ReadResult.allocFail st) :
    postValidate salt ic rlen stdin rok g kdf =
      { exitCode := 3, err := some ErrKind.allocFail, stdout := [],
        kdfCall := none, cleanupRan := true,
        passReleased := none, resultReleased := none, lost := st.lost } := by
  simp [postValidate, hr, cleanup]

theorem postValidate_empty (salt : List Nat) (ic rlen : Int)
    (stdin : List Nat) (rok : Nat → Bool) (g : Bool)
    (kdf : List Nat → List Nat → Int → Int → List Nat) (st : ReadState)
    (hr : readLoop rok (readBytes stdin) initState = ReadResult.ok st)
    (hl : st.buf.length ≤ 1) :
    postValidate salt ic rlen stdin rok g kdf =
      { exitCode := 1, err := some ErrKind.emptyPass, stdout := [],
        kdfCall := none, cleanupRan := true,
        passReleased := some (blankPass st.buf),
        resultReleased := none, lost := st.lost } := by
  simp [postValidate, hr, hl, cleanup]

theorem postValidate_gcryFail (salt : List Nat) (ic rlen : Int)
    (stdin : List Nat) (rok : Nat → Bool)
    (kdf : List Nat → List Nat → Int → Int → List Nat) (st : ReadState)
    (hr : readLoop rok (readBytes stdin) initState = ReadResult.ok st)
    (hl : 1 < st.buf.length) :
    postValidate salt ic rlen stdin rok false kdf =
      { exitCode := 2, err := some ErrKind.gcryFail, stdout := [],
        kdfCall := none, cleanupRan := true,
        passReleased := some (blankPass (st.buf.set (st.buf.length - 1) 0)),
        resultReleased := some (zeroFirst rlen.toNat (List.replicate rlen.toNat 0)),
        lost := st.lost } := by
  have hl' : ¬ (st.buf.length ≤ 1) := by omega
  simp [postValidate, hr, hl', cleanup]

theorem postValidate_success (salt : List Nat) (ic rlen : Int)
    (stdin : List Nat) (rok : Nat → Bool)
    (kdf : List Nat → List Nat → Int → Int → List Nat) (st : ReadState)
    (hr : readLoop rok (readBytes stdin) initState = ReadResult.ok st)
    (hl : 1 < st.buf.length) :
    postValidate salt ic rlen stdin rok true kdf =
      { exitCode := 0, err := none,
        stdout := print_hex (padTo rlen.toNat
          (kdf (st.buf.take (st.buf.length - 1)) salt ic rlen)),
        kdfCall := some (st.buf.take (st.buf.length - 1), salt, ic, rlen),
        cleanupRan := true,
        passReleased := some (blankPass (st.buf.set (st.buf.length - 1) 0)),
        resultReleased := some (zeroFirst rlen.toNat (padTo rlen.toNat
          (kdf (st.buf.take (st.buf.length - 1)) salt ic rlen))),
        lost := st.lost } := by
  have hl' : ¬ (st.buf.length ≤ 1) := by omega
  have htake : (st.buf.set (st.buf.length - 1) 0).take (st.buf.length - 1)
      = st.buf.take (st.buf.length - 1) := by
    apply List.ext_getElem?
    intro i
    rw [List.getElem?_take, List.getElem?_take]
    split
    · next hlt => rw [List.getElem?_set_ne (by omega)]
    · rfl
  simp [postValidate, hr, hl', cleanup, htake]

theorem readLoop_short (rok : Nat → Bool) (l : List Nat) (hl : l.length ≤ 1) :
    readLoop rok l initState =
      ReadResult.ok { buf := l, buffLen := 40, reallocs := 0, lost := [] } := by
  rcases l with _ | ⟨b, _ | ⟨c, t⟩⟩
  · rfl
  · simp [readLoop, initState]
  · simp at hl

theorem blankPass_short (l : List Nat) (hl : l.length ≤ 1) :
    ∀ x ∈ blankPass l, x = 0 := by
  rcases l with _ | ⟨b, _ | ⟨c, t⟩⟩
  · simp [blankPass, zeroFirst, cstrlen]
  · by_cases hb : b = 0 <;>
      simp [blankPass, zeroFirst, cstrlen, List.takeWhile, hb]
  · simp at hl

theorem readBytes_length_le (stdin : List Nat) :
    (readBytes stdin).length ≤ stdin.length :=
  (List.takeWhile_sublist _).length_le

theorem mainRun_empty_pass (a1 a2 a3 : String) (stdin : List Nat)
    (uninit : Int) (rok : Nat → Bool) (g : Bool)
    (kdf : List Nat → List Nat → Int → Int → List Nat)
    (s : List Nat) (v2 v3 : Int)
    (h1 : hex_to_binary a1.toList = some s) (h2 : s ≠ [])
    (h3 : sscanf_d a2.toList = ScanD.ok v2) (h4 : 0 < v2)
    (h5 : sscanf_d a3.toList = ScanD.ok v3) (h6 : 0 < v3)
    (hst : stdin.length ≤ 1) :
    mainRun [a1, a2, a3] stdin uninit rok g kdf =
      { exitCode := 1, err := some ErrKind.emptyPass, stdout := [],
        kdfCall := none, cleanupRan := true,
        passReleased := some (blankPass (readBytes stdin)),
        resultReleased := none, lost := [] } := by
  have hb : (readBytes stdin).length ≤ 1 :=
    le_trans (readBytes_length_le stdin) hst
  have hm : mainRun [a1, a2, a3] stdin uninit rok g kdf
      = mainArgs a1 a2 a3 stdin uninit rok g kdf := rfl
  rw [hm, mainArgs_valid a1 a2 a3 stdin uninit rok g kdf s v2 v3 h1 h2 h3 h4 h5 h6,
    postValidate_empty s v2 v3 stdin rok g kdf _ (readLoop_short rok _ hb) hb]

theorem postValidate_err (salt : List Nat) (ic rlen : Int) (stdin : List Nat)
    (rok : Nat → Bool) (g : Bool)
    (kdf : List Nat → List Nat → Int → Int → List Nat) :
    (postValidate salt ic rlen stdin rok g kdf).err = none ∨
    (postValidate salt ic rlen stdin rok g kdf).err = some ErrKind.allocFail ∨
    (postValidate salt ic rlen stdin rok g kdf).err = some ErrKind.emptyPass ∨
    (postValidate salt ic rlen stdin rok g kdf).err = some ErrKind.gcryFail := by
  cases hE : readLoop rok (readBytes stdin) initState with
  | ok st =>
    by_cases hl : st.buf.length ≤ 1
    · simp [postValidate, hE, hl]
    · cases g <;> simp [postValidate, hE, hl]
  | allocFail st => simp [postValidate, hE]

/-! ### Claims -/

/-- Claim C1 (code bug): the claim states that the passphrase reader
appends every byte received before end-of-stream and that reading stops
only at end-of-stream.  Because `char c = getchar()` stores the byte in a
signed char, a 0xFF data byte compares equal to EOF and stops the read:
for the stream 68 69 FF 21 0A only the first two bytes are appended. -/
theorem claim_C1_read_stops_at_ff_byte :
    readBytes [104, 105, 255, 33, 10] = [104, 105] ∧
    readBytes [104, 105, 255, 33, 10] ≠ [104, 105, 255, 33, 10] := by
  decide

/-- Claim C2 (code bug): the claim states that release zeroes every byte
of the used length, in particular bytes after an embedded null.  `cleanup`
blanks `strlen(pass)` bytes, so for stdin 61 00 62 0A (passphrase 'a', NUL,
'b') the byte 0x62 at index 2 is still intact in the freed region. -/
theorem claim_C2_zeroize_stops_at_embedded_null :
    (mainRun ["00", "1000", "48"] [97, 0, 98, 10] 0 (fun _ => true) true
      zkdf).passReleased = some [0, 0, 98, 0] ∧
    ((mainRun ["00", "1000", "48"] [97, 0, 98, 10] 0 (fun _ => true) true
      zkdf).passReleased.getD []).getD 2 0 = 98 := by
  decide

/-- Claim C3 (code bug): the claim states that growth never leaves
previously-written secret bytes in released or abandoned storage without
zeroization.  With a 41-byte passphrase the loop calls
`pass = realloc(pass, 80)`: if the call fails the 40 secret bytes are
abandoned un-zeroized (and `cleanup` then receives NULL, exit 3); if it
succeeds and relocates, the old 40-byte region is freed un-zeroized. -/
theorem claim_C3_growth_leaks_unzeroized_secret :
    ((mainRun ["00", "1000", "48"] (List.replicate 41 97) 0 (fun _ => false)
        true zkdf).exitCode = 3 ∧
      (mainRun ["00", "1000", "48"] (List.replicate 41 97) 0 (fun _ => false)
        true zkdf).cleanupRan = true ∧
      (mainRun ["00", "1000", "48"] (List.replicate 41 97) 0 (fun _ => false)
        true zkdf).lost = [List.replicate 40 97]) ∧
    (mainRun ["00", "1000", "48"] (List.replicate 41 97 ++ [10]) 0
      (fun _ => true) true zkdf).lost = [List.replicate 40 97] := by
  decide

/-- Claim C4 (code bug): the claim states that after end-of-stream exactly
the final input byte is dropped and every other input byte is significant
to the derivation.  For the stream 61 62 FF 63 0A the read already stops
at the 0xFF byte, the byte dropped as terminator is 0x62 (not the final
newline), and derivation sees only 0x61 — unchanged if the input byte
0x63 is replaced by 0x64. -/
theorem claim_C4_bytes_after_ff_not_significant :
    (mainRun ["00", "1000", "48"] [97, 98, 255, 99, 10] 0 (fun _ => true)
      true zkdf).kdfCall = some ([97], [0], 1000, 48) ∧
    (mainRun ["00", "1000", "48"] [97, 98, 255, 100, 10] 0 (fun _ => true)
      true zkdf).kdfCall = some ([97], [0], 1000, 48) := by
  decide

/-- Claim C5 (confirmed): for a zero-byte or terminator-only stdin, with
well-formed arguments, the program reports the empty-passphrase error,
exits 1, writes nothing to stdout, attempts no derivation, and still runs
cleanup, with the released passphrase region all zero. -/
theorem claim_C5_empty_passphrase_rejected (a1 a2 a3 : String)
    (stdin : List Nat) (uninit : Int) (rok : Nat → Bool) (g : Bool)
    (kdf : List Nat → List Nat → Int → Int → List Nat)
    (s : List Nat) (v2 v3 : Int)
    (h1 : hex_to_binary a1.toList = some s) (h2 : s ≠ [])
    (h3 : sscanf_d a2.toList = ScanD.ok v2) (h4 : 0 < v2)
    (h5 : sscanf_d a3.toList = ScanD.ok v3) (h6 : 0 < v3)
    (hst : stdin = [] ∨ stdin = [10]) :
    (mainRun [a1, a2, a3] stdin uninit rok g kdf).err = some ErrKind.emptyPass ∧
    (mainRun [a1, a2, a3] stdin uninit rok g kdf).exitCode = 1 ∧
    (mainRun [a1, a2, a3] stdin uninit rok g kdf).stdout = [] ∧
    (mainRun [a1, a2, a3] stdin uninit rok g kdf).kdfCall = none ∧
    (mainRun [a1, a2, a3] stdin uninit rok g kdf).cleanupRan = true ∧
    ∀ x ∈ ((mainRun [a1, a2, a3] stdin uninit rok g kdf).passReleased.getD []),
      x = 0 := by
  have hlen : stdin.length ≤ 1 := by rcases hst with rfl | rfl <;> simp
  rw [mainRun_empty_pass a1 a2 a3 stdin uninit rok g kdf s v2 v3
    h1 h2 h3 h4 h5 h6 hlen]
  refine ⟨rfl, rfl, rfl, rfl, rfl, ?_⟩
  simpa using blankPass_short (readBytes stdin)
    (le_trans (readBytes_length_le stdin) hlen)

/-- Witness for C5 at salt 00, count 1000, length 48, stdin a lone
newline. -/
theorem claim_C5_witness :
    (mainRun ["00", "1000", "48"] [10] 0 (fun _ => true) true zkdf).err
        = some ErrKind.emptyPass ∧
    (mainRun ["00", "1000", "48"] [10] 0 (fun _ => true) true zkdf).exitCode
        = 1 ∧
    (mainRun ["00", "1000", "48"] [10] 0 (fun _ => true) true zkdf).stdout
        = [] ∧
    (mainRun ["00", "1000", "48"] [10] 0 (fun _ => true) true zkdf).kdfCall
        = none ∧
    (mainRun ["00", "1000", "48"] [10] 0 (fun _ => true) true zkdf).cleanupRan
        = true := by
  have h := claim_C5_empty_passphrase_rejected "00" "1000" "48" [10] 0
    (fun _ => true) true zkdf [0] 1000 48 (by decide) (by decide) (by decide)
    (by decide) (by decide) (by decide) (Or.inr rfl)
  exact ⟨h.1, h.2.1, h.2.2.1, h.2.2.2.1, h.2.2.2.2.1⟩

/-- Claim C6 counterexample: the claim states decode fails whenever a
two-digit group is not valid hexadecimal; the group "az" is not valid hex
('z' is no hex digit) yet decode succeeds, because `sscanf("%2x")` parses
the one digit 'a' and the code still advances by two characters. -/
theorem claim_C6_counterexample :
    hexVal 'z' = none ∧ hex_to_binary ['a', 'z'] = some [10] := by
  decide

/-- Claim C6 as amended: decode consumes the input two characters at a
time (a final lone character as a one-character group), each group being
scanned like C's `%x` against the whole remaining input: leading
whitespace is skipped without counting toward the field width, an
optional + or - sign counts toward the width, then up to the remaining
width hex digits are read, the group contributing the low byte of the
scanned unsigned 32-bit value.  So: all-hex-digit input decodes two
digits per byte, n digits to ceil(n/2) bytes; whitespace before a group
is skipped; a group with a valid first and invalid second digit
contributes its first digit's value; a minus-led group contributes the
low byte of the negated value and a plus-led group the value itself; and
decode fails when the remaining input starts with a character that is
neither whitespace, a sign, nor a hex digit, or with a sign not followed
by a hex digit within the width. -/
theorem claim_C6_amended_group_decode :
    (∀ s : List Char, (∀ c ∈ s, (hexVal c).isSome) →
        hex_to_binary s = some (groupPairs s) ∧
        (groupPairs s).length = (s.length + 1) / 2)
  ∧ (∀ (w : Nat) (pre t : List Char), (∀ c ∈ pre, isWs c = true) →
        scanHex w (pre ++ t) = scanHex w t)
  ∧ (∀ (c1 c2 : Char) (v1 : Nat) (rest : List Char),
        hexVal c1 = some v1 → hexVal c2 = none →
        hex_to_binary (c1 :: c2 :: rest)
          = (hex_to_binary rest).map (fun vs => v1 :: vs))
  ∧ (∀ (c1 c2 : Char) (v2 : Nat) (rest : List Char),
        c1.toNat = 45 → hexVal c2 = some v2 →
        hex_to_binary (c1 :: c2 :: rest)
          = (hex_to_binary rest).map (fun vs => (2 ^ 32 - v2) % 256 :: vs))
  ∧ (∀ (c1 c2 : Char) (v2 : Nat) (rest : List Char),
        c1.toNat = 43 → hexVal c2 = some v2 →
        hex_to_binary (c1 :: c2 :: rest)
          = (hex_to_binary rest).map (fun vs => v2 :: vs))
  ∧ (∀ (c : Char) (r : List Char), hexVal c = none → isWs c = false →
        c.toNat ≠ 45 → c.toNat ≠ 43 → hex_to_binary (c :: r) = none)
  ∧ (∀ (c1 c2 : Char) (r : List Char), (c1.toNat = 45 ∨ c1.toNat = 43) →
        hexVal c2 = none → hex_to_binary (c1 :: c2 :: r) = none)
  ∧ (∀ c1 : Char, (c1.toNat = 45 ∨ c1.toNat = 43) →
        hex_to_binary [c1] = none) := by
  refine ⟨fun s hs => ⟨hex_to_binary_all_hex s hs, groupPairs_length s⟩,
    scanHex_ws_skip, ?_, ?_, ?_, ?_, ?_, ?_⟩
  · intro c1 c2 v1 rest h1 h2
    have hlt : v1 < 16 := hexVal_lt_16 h1
    cases hres : hex_to_binary rest with
    | none => simp [hex_to_binary, scanHex_two_bad rest h1 h2, hres]
    | some vs =>
      simp [hex_to_binary, scanHex_two_bad rest h1 h2, hres,
        Nat.mod_eq_of_lt (by omega : v1 < 256)]
  · intro c1 c2 v2 rest h1 h2
    have hlt : v2 < 16 := hexVal_lt_16 h2
    cases hres : hex_to_binary rest with
    | none => simp [hex_to_binary, scanHex_sign_neg rest h1 h2, hres]
    | some vs =>
      simp [hex_to_binary, scanHex_sign_neg rest h1 h2, hres]
      omega
  · intro c1 c2 v2 rest h1 h2
    have hlt : v2 < 16 := hexVal_lt_16 h2
    cases hres : hex_to_binary rest with
    | none => simp [hex_to_binary, scanHex_sign_pos rest h1 h2, hres]
    | some vs =>
      simp [hex_to_binary, scanHex_sign_pos rest h1 h2, hres,
        Nat.mod_eq_of_lt (by omega : v2 < 256)]
  · intro c r h hw h45 h43
    have hs : ¬ (c.toNat = 45 ∨ c.toNat = 43) := by omega
    rcases r with _ | ⟨c2, rs⟩
    · simp [hex_to_binary, scanHex_none 0 [] h hw hs]
    · simp [hex_to_binary, scanHex_none 1 (c2 :: rs) h hw hs]
  · intro c1 c2 r h1 h2
    simp [hex_to_binary, scanHex_sign_bad r h1 h2]
  · intro c1 h1
    simp [hex_to_binary, scanHex_lone_sign h1]

/-- Witness for the amended C6: all-hex "deadb" decodes by groups, a
leading space is skipped, a trailing invalid second digit folds to the
first digit's value, minus and plus signed groups are accepted, and the
three failure shapes fail. -/
theorem claim_C6_witness :
    hex_to_binary ['d', 'e', 'a', 'd', 'b'] = some [222, 173, 11] ∧
    scanHex 2 [' ', 'a', 'b'] = scanHex 2 ['a', 'b'] ∧
    hex_to_binary ['b', 'z'] = some [11] ∧
    hex_to_binary ['-', '5'] = some [251] ∧
    hex_to_binary ['+', '5'] = some [5] ∧
    hex_to_binary ['z', '9'] = none ∧
    hex_to_binary ['-', 'z'] = none ∧
    hex_to_binary ['-'] = none := by
  refine ⟨?_, ?_, ?_, ?_, ?_, ?_, ?_, ?_⟩
  · have h := (claim_C6_amended_group_decode.1 ['d', 'e', 'a', 'd', 'b']
      (by decide)).1
    rw [h]
    decide
  · exact claim_C6_amended_group_decode.2.1 2 [' '] ['a', 'b'] (by decide)
  · have h := claim_C6_amended_group_decode.2.2.1 'b' 'z' 11 [] (by decide)
      (by decide)
    rw [h]
    decide
  · have h := claim_C6_amended_group_decode.2.2.2.1 '-' '5' 5 [] (by decide)
      (by decide)
    rw [h]
    decide
  · have h := claim_C6_amended_group_decode.2.2.2.2.1 '+' '5' 5 [] (by decide)
      (by decide)
    rw [h]
    decide
  · exact claim_C6_amended_group_decode.2.2.2.2.2.1 'z' ['9'] (by decide)
      (by decide) (by decide) (by decide)
  · exact claim_C6_amended_group_decode.2.2.2.2.2.2.1 '-' 'z' [] (by decide)
      (by decide)
  · exact claim_C6_amended_group_decode.2.2.2.2.2.2.2 '-' (by decide)

/-- Claim C7 (confirmed): decode inverts encode on byte sequences, the
encoding is two lowercase hex digits per byte in input order, and the
emitted text is exactly 2·L digits plus one newline. -/
theorem claim_C7_hex_round_trip (bs : List Nat) (h : ∀ b ∈ bs, b < 256) :
    hex_to_binary (hex_of_bytes bs) = some bs ∧
    print_hex bs = hex_of_bytes bs ++ [Char.ofNat 10] ∧
    (hex_of_bytes bs).length = 2 * bs.length ∧
    (print_hex bs).length = 2 * bs.length + 1 ∧
    ∀ c ∈ hex_of_bytes bs,
      (48 ≤ c.toNat ∧ c.toNat ≤ 57) ∨ (97 ≤ c.toNat ∧ c.toNat ≤ 102) := by
  refine ⟨hex_to_binary_hex_of_bytes bs h, rfl, hex_of_bytes_length bs, ?_,
    hex_of_bytes_lower bs h⟩
  simp [print_hex, hex_of_bytes_length bs]

/-- Witness for C7 at the bytes 00 ab ff. -/
theorem claim_C7_witness :
    hex_to_binary (hex_of_bytes [0, 171, 255]) = some [0, 171, 255] ∧
    (hex_of_bytes [0, 171, 255]).length = 6 ∧
    (print_hex [0, 171, 255]).length = 7 := by
  have h := claim_C7_hex_round_trip [0, 171, 255] (by decide)
  exact ⟨h.1, by simpa using h.2.2.1, by simpa using h.2.2.2.1⟩

/-- Claim C8 counterexample: the claim states that a non-numeric
iteration-count argument fails before any KDF call; the argument "12abc"
is not a numeral, yet `sscanf("%d")` parses its prefix 12 and the program
derives and exits 0. -/
theorem claim_C8_counterexample :
    (mainRun ["00", "12abc", "4"] [97, 98, 10] 0 (fun _ => true) true
      zkdf).exitCode = 0 ∧
    (mainRun ["00", "12abc", "4"] [97, 98, 10] 0 (fun _ => true) true
      zkdf).kdfCall = some ([97, 98], [0], 12, 4) ∧
    (mainRun ["00", "12abc", "4"] [97, 98, 10] 0 (fun _ => true) true
      zkdf).err = none := by
  decide

/-- Claim C8 as amended: an iteration-count argument whose `%d` scan
yields no value (matching failure on visible non-numeric text, or EOF on
empty or whitespace-only input, which leaves `ic` at its initial 0) or a
non-positive value fails with the invalid parameter error, exit 1, and no
KDF call.  An output-length argument with a matching failure, or whose
resulting value — the scanned value, or on EOF the uninitialized
`result_len` garbage — is non-positive, is likewise rejected; but an
empty or whitespace-only length argument makes `sscanf` return EOF,
which the `== 0` test does not catch, so positive garbage in the
uninitialized `result_len` is accepted and the run proceeds to derive
with the garbage length.  When both values come out positive the run
never reports a parameter error — acceptance is decided by the
optionally-signed decimal prefix (or the garbage value on an empty
length argument), trailing non-numeric characters being ignored. -/
theorem claim_C8_amended_validation :
    (∀ (a1 a2 a3 : String) (stdin : List Nat) (uninit : Int)
        (rok : Nat → Bool) (g : Bool)
        (kdf : List Nat → List Nat → Int → Int → List Nat) (s : List Nat),
        hex_to_binary a1.toList = some s → s ≠ [] →
        (sscanf_d a2.toList = ScanD.fail ∨
          scanGet (sscanf_d a2.toList) 0 ≤ 0) →
        (mainRun [a1, a2, a3] stdin uninit rok g kdf).err
            = some ErrKind.invalidCount ∧
        (mainRun [a1, a2, a3] stdin uninit rok g kdf).exitCode = 1 ∧
        (mainRun [a1, a2, a3] stdin uninit rok g kdf).kdfCall = none)
  ∧ (∀ (a1 a2 a3 : String) (stdin : List Nat) (uninit : Int)
        (rok : Nat → Bool) (g : Bool)
        (kdf : List Nat → List Nat → Int → Int → List Nat)
        (s : List Nat) (v2 : Int),
        hex_to_binary a1.toList = some s → s ≠ [] →
        sscanf_d a2.toList = ScanD.ok v2 → 0 < v2 →
        (sscanf_d a3.toList = ScanD.fail ∨
          scanGet (sscanf_d a3.toList) uninit ≤ 0) →
        (mainRun [a1, a2, a3] stdin uninit rok g kdf).err
            = some ErrKind.invalidLen ∧
        (mainRun [a1, a2, a3] stdin uninit rok g kdf).exitCode = 1 ∧
        (mainRun [a1, a2, a3] stdin uninit rok g kdf).kdfCall = none)
  ∧ (∀ (a1 a2 a3 : String) (stdin : List Nat) (uninit : Int)
        (rok : Nat → Bool) (g : Bool)
        (kdf : List Nat → List Nat → Int → Int → List Nat)
        (s : List Nat) (v2 : Int),
        hex_to_binary a1.toList = some s → s ≠ [] →
        sscanf_d a2.toList = ScanD.ok v2 → 0 < v2 →
        sscanf_d a3.toList = ScanD.eof → 0 < uninit →
        mainRun [a1, a2, a3] stdin uninit rok g kdf
          = postValidate s v2 uninit stdin rok g kdf)
  ∧ (∀ (a1 a2 a3 : String) (stdin : List Nat) (uninit : Int)
        (rok : Nat → Bool) (g : Bool)
        (kdf : List Nat → List Nat → Int → Int → List Nat)
        (s : List Nat) (v2 v3 : Int),
        hex_to_binary a1.toList = some s → s ≠ [] →
        sscanf_d a2.toList = ScanD.ok v2 → 0 < v2 →
        sscanf_d a3.toList = ScanD.ok v3 → 0 < v3 →
        (mainRun [a1, a2, a3] stdin uninit rok g kdf).err
            ≠ some ErrKind.invalidCount ∧
        (mainRun [a1, a2, a3] stdin uninit rok g kdf).err
            ≠ some ErrKind.invalidLen) := by
  refine ⟨?_, ?_, ?_, ?_⟩
  · intro a1 a2 a3 stdin uninit rok g kdf s h1 h2 h3
    have hm : mainRun [a1, a2, a3] stdin uninit rok g kdf
        = mainArgs a1 a2 a3 stdin uninit rok g kdf := rfl
    rw [hm, mainArgs_bad_count a1 a2 a3 stdin uninit rok g kdf s h1 h2 h3]
    exact ⟨rfl, rfl, rfl⟩
  · intro a1 a2 a3 stdin uninit rok g kdf s v2 h1 h2 h3 h4 h5
    have hm : mainRun [a1, a2, a3] stdin uninit rok g kdf
        = mainArgs a1 a2 a3 stdin uninit rok g kdf := rfl
    rw [hm, mainArgs_bad_len a1 a2 a3 stdin uninit rok g kdf s v2 h1 h2 h3 h4 h5]
    exact ⟨rfl, rfl, rfl⟩
  · intro a1 a2 a3 stdin uninit rok g kdf s v2 h1 h2 h3 h4 h5 h6
    exact mainArgs_valid_eof a1 a2 a3 stdin uninit rok g kdf s v2
      h1 h2 h3 h4 h5 h6
  · intro a1 a2 a3 stdin uninit rok g kdf s v2 v3 h1 h2 h3 h4 h5 h6
    have hm : mainRun [a1, a2, a3] stdin uninit rok g kdf
        = postValidate s v2 v3 stdin rok g kdf :=
      mainArgs_valid a1 a2 a3 stdin uninit rok g kdf s v2 v3 h1 h2 h3 h4 h5 h6
    rw [hm]
    rcases postValidate_err s v2 v3 stdin rok g kdf with h | h | h | h <;>
      simp [h]

/-- Witness for the amended C8: count "0" is rejected, length "-2" is
rejected, an empty length argument with positive garbage 7 in the
uninitialized `result_len` is accepted and derives 7 bytes, and count "7"
with length "9" never yields a parameter error. -/
theorem claim_C8_witness :
    ((mainRun ["00", "0", "4"] [97, 10] 0 (fun _ => true) true zkdf).err
        = some ErrKind.invalidCount ∧
      (mainRun ["00", "0", "4"] [97, 10] 0 (fun _ => true) true
        zkdf).exitCode = 1 ∧
      (mainRun ["00", "0", "4"] [97, 10] 0 (fun _ => true) true
        zkdf).kdfCall = none) ∧
    ((mainRun ["00", "5", "-2"] [97, 10] 0 (fun _ => true) true zkdf).err
        = some ErrKind.invalidLen ∧
      (mainRun ["00", "5", "-2"] [97, 10] 0 (fun _ => true) true
        zkdf).exitCode = 1 ∧
      (mainRun ["00", "5", "-2"] [97, 10] 0 (fun _ => true) true
        zkdf).kdfCall = none) ∧
    ((mainRun ["00", "5", ""] [97, 10] 7 (fun _ => true) true
        zkdf).exitCode = 0 ∧
      (mainRun ["00", "5", ""] [97, 10] 7 (fun _ => true) true
        zkdf).kdfCall = some ([97], [0], 5, 7)) ∧
    ((mainRun ["00", "7", "9"] [97, 10] 0 (fun _ => true) true zkdf).err
        ≠ some ErrKind.invalidCount ∧
      (mainRun ["00", "7", "9"] [97, 10] 0 (fun _ => true) true zkdf).err
        ≠ some ErrKind.invalidLen) := by
  refine ⟨?_, ?_, ?_, ?_⟩
  · exact claim_C8_amended_validation.1 "00" "0" "4" [97, 10] 0
      (fun _ => true) true zkdf [0] (by decide) (by decide) (by decide)
  · exact claim_C8_amended_validation.2.1 "00" "5" "-2" [97, 10] 0
      (fun _ => true) true zkdf [0] 5 (by decide) (by decide) (by decide)
      (by decide) (by decide)
  · have h := claim_C8_amended_validation.2.2.1 "00" "5" "" [97, 10] 7
      (fun _ => true) true zkdf [0] 5 (by decide) (by decide) (by decide)
      (by decide) (by decide) (by decide)
    rw [h]
    exact ⟨by decide, by decide⟩
  · exact claim_C8_amended_validation.2.2.2 "00" "7" "9" [97, 10] 0
      (fun _ => true) true zkdf [0] 7 9 (by decide) (by decide) (by decide)
      (by decide) (by decide) (by decide)

/-- Claim C9 (confirmed): exit codes per failure category — wrong
argument count 10; invalid salt hex, invalid count/length, and empty
passphrase 1; realloc failure during the passphrase read 3; libgcrypt
version mismatch 2; success 0. -/
theorem claim_C9_exit_codes :
    (∀ (argv : List String) (stdin : List Nat) (uninit : Int)
        (rok : Nat → Bool) (g : Bool)
        (kdf : List Nat → List Nat → Int → Int → List Nat),
        argv.length ≠ 3 →
        (mainRun argv stdin uninit rok g kdf).exitCode = 10)
  ∧ (∀ (a1 a2 a3 : String) (stdin : List Nat) (uninit : Int)
        (rok : Nat → Bool) (g : Bool)
        (kdf : List Nat → List Nat → Int → Int → List Nat),
        (hex_to_binary a1.toList = none ∨ hex_to_binary a1.toList = some []) →
        (mainRun [a1, a2, a3] stdin uninit rok g kdf).exitCode = 1)
  ∧ (∀ (a1 a2 a3 : String) (stdin : List Nat) (uninit : Int)
        (rok : Nat → Bool) (g : Bool)
        (kdf : List Nat → List Nat → Int → Int → List Nat) (s : List Nat),
        hex_to_binary a1.toList = some s → s ≠ [] →
        (sscanf_d a2.toList = ScanD.fail ∨
          scanGet (sscanf_d a2.toList) 0 ≤ 0) →
        (mainRun [a1, a2, a3] stdin uninit rok g kdf).exitCode = 1)
  ∧ (∀ (a1 a2 a3 : String) (stdin : List Nat) (uninit : Int)
        (rok : Nat → Bool) (g : Bool)
        (kdf : List Nat → List Nat → Int → Int → List Nat)
        (s : List Nat) (v2 : Int),
        hex_to_binary a1.toList = some s → s ≠ [] →
        sscanf_d a2.toList = ScanD.ok v2 → 0 < v2 →
        (sscanf_d a3.toList = ScanD.fail ∨
          scanGet (sscanf_d a3.toList) uninit ≤ 0) →
        (mainRun [a1, a2, a3] stdin uninit rok g kdf).exitCode = 1)
  ∧ (∀ (a1 a2 a3 : String) (stdin : List Nat) (uninit : Int)
        (rok : Nat → Bool) (g : Bool)
        (kdf : List Nat → List Nat → Int → Int → List Nat)
        (s : List Nat) (v2 v3 : Int) (st : ReadState),
        hex_to_binary a1.toList = some s → s ≠ [] →
        sscanf_d a2.toList = ScanD.ok v2 → 0 < v2 →
        sscanf_d a3.toList = ScanD.ok v3 → 0 < v3 →
        readLoop rok (readBytes stdin) initState = ReadResult.ok st →
        st.buf.length ≤ 1 →
        (mainRun [a1, a2, a3] stdin uninit rok g kdf).exitCode = 1 ∧
        (mainRun [a1, a2, a3] stdin uninit rok g kdf).err
            = some ErrKind.emptyPass)
  ∧ (∀ (a1 a2 a3 : String) (stdin : List Nat) (uninit : Int)
        (rok : Nat → Bool) (g : Bool)
        (kdf : List Nat → List Nat → Int → Int → List Nat)
        (s : List Nat) (v2 v3 : Int) (st : ReadState),
        hex_to_binary a1.toList = some s → s ≠ [] →
        sscanf_d a2.toList = ScanD.ok v2 → 0 < v2 →
        sscanf_d a3.toList = ScanD.ok v3 → 0 < v3 →
        readLoop rok (readBytes stdin) initState = ReadResult.allocFail st →
        (mainRun [a1, a2, a3] stdin uninit rok g kdf).exitCode = 3)
  ∧ (∀ (a1 a2 a3 : String) (stdin : List Nat) (uninit : Int)
        (rok : Nat → Bool)
        (kdf : List Nat → List Nat → Int → Int → List Nat)
        (s : List Nat) (v2 v3 : Int) (st : ReadState),
        hex_to_binary a1.toList = some s → s ≠ [] →
        sscanf_d a2.toList = ScanD.ok v2 → 0 < v2 →
        sscanf_d a3.toList = ScanD.ok v3 → 0 < v3 →
        readLoop rok (readBytes stdin) initState = ReadResult.ok st →
        1 < st.buf.length →
        (mainRun [a1, a2, a3] stdin uninit rok false kdf).exitCode = 2)
  ∧ (∀ (a1 a2 a3 : String) (stdin : List Nat) (uninit : Int)
        (rok : Nat → Bool)
        (kdf : List Nat → List Nat → Int → Int → List Nat)
        (s : List Nat) (v2 v3 : Int) (st : ReadState),
        hex_to_binary a1.toList = some s → s ≠ [] →
        sscanf_d a2.toList = ScanD.ok v2 → 0 < v2 →
        sscanf_d a3.toList = ScanD.ok v3 → 0 < v3 →
        readLoop rok (readBytes stdin) initState = ReadResult.ok st →
        1 < st.buf.length →
        (mainRun [a1, a2, a3] stdin uninit rok true kdf).exitCode = 0 ∧
        (mainRun [a1, a2, a3] stdin uninit rok true kdf).err = none) := by
  refine ⟨?_, ?_, ?_, ?_, ?_, ?_, ?_, ?_⟩
  · intro argv stdin uninit rok g kdf h
    rw [mainRun_usage argv stdin uninit rok g kdf h]
    rfl
  · intro a1 a2 a3 stdin uninit rok g kdf h
    have hm : mainRun [a1, a2, a3] stdin uninit rok g kdf
        = mainArgs a1 a2 a3 stdin uninit rok g kdf := rfl
    rw [hm, mainArgs_bad_salt a1 a2 a3 stdin uninit rok g kdf h]
    rfl
  · intro a1 a2 a3 stdin uninit rok g kdf s h1 h2 h3
    have hm : mainRun [a1, a2, a3] stdin uninit rok g kdf
        = mainArgs a1 a2 a3 stdin uninit rok g kdf := rfl
    rw [hm, mainArgs_bad_count a1 a2 a3 stdin uninit rok g kdf s h1 h2 h3]
    rfl
  · intro a1 a2 a3 stdin uninit rok g kdf s v2 h1 h2 h3 h4 h5
    have hm : mainRun [a1, a2, a3] stdin uninit rok g kdf
        = mainArgs a1 a2 a3 stdin uninit rok g kdf := rfl
    rw [hm, mainArgs_bad_len a1 a2 a3 stdin uninit rok g kdf s v2 h1 h2 h3 h4 h5]
    rfl
  · intro a1 a2 a3 stdin uninit rok g kdf s v2 v3 st h1 h2 h3 h4 h5 h6 hr hl
    have hm : mainRun [a1, a2, a3] stdin uninit rok g kdf
        = postValidate s v2 v3 stdin rok g kdf :=
      mainArgs_valid a1 a2 a3 stdin uninit rok g kdf s v2 v3 h1 h2 h3 h4 h5 h6
    rw [hm, postValidate_empty s v2 v3 stdin rok g kdf st hr hl]
    exact ⟨rfl, rfl⟩
  · intro a1 a2 a3 stdin uninit rok g kdf s v2 v3 st h1 h2 h3 h4 h5 h6 hr
    have hm : mainRun [a1, a2, a3] stdin uninit rok g kdf
        = postValidate s v2 v3 stdin rok g kdf :=
      mainArgs_valid a1 a2 a3 stdin uninit rok g kdf s v2 v3 h1 h2 h3 h4 h5 h6
    rw [hm, postValidate_allocFail s v2 v3 stdin rok g kdf st hr]
  · intro a1 a2 a3 stdin uninit rok kdf s v2 v3 st h1 h2 h3 h4 h5 h6 hr hl
    have hm : mainRun [a1, a2, a3] stdin uninit rok false kdf
        = postValidate s v2 v3 stdin rok false kdf :=
      mainArgs_valid a1 a2 a3 stdin uninit rok false kdf s v2 v3 h1 h2 h3 h4 h5 h6
    rw [hm, postValidate_gcryFail s v2 v3 stdin rok kdf st hr hl]
  · intro a1 a2 a3 stdin uninit rok kdf s v2 v3 st h1 h2 h3 h4 h5 h6 hr hl
    have hm : mainRun [a1, a2, a3] stdin uninit rok true kdf
        = postValidate s v2 v3 stdin rok true kdf :=
      mainArgs_valid a1 a2 a3 stdin uninit rok true kdf s v2 v3 h1 h2 h3 h4 h5 h6
    rw [hm, postValidate_success s v2 v3 stdin rok kdf st hr hl]
    exact ⟨rfl, rfl⟩

/-- Witness for C9: one concrete run per exit-code category. -/
theorem claim_C9_witness :
    (mainRun ["00", "1000"] [10] 0 (fun _ => true) true zkdf).exitCode = 10 ∧
    (mainRun ["zz", "1000", "48"] [10] 0 (fun _ => true) true
      zkdf).exitCode = 1 ∧
    (mainRun ["00", "x9", "48"] [97, 10] 0 (fun _ => true) true
      zkdf).exitCode = 1 ∧
    (mainRun ["00", "5", "abc"] [97, 10] 0 (fun _ => true) true
      zkdf).exitCode = 1 ∧
    (mainRun ["00", "1000", "48"] [10] 0 (fun _ => true) true
      zkdf).exitCode = 1 ∧
    (mainRun ["00", "1000", "48"] (List.replicate 41 97) 0 (fun _ => false)
      true zkdf).exitCode = 3 ∧
    (mainRun ["00", "1000", "48"] [97, 10] 0 (fun _ => true) false
      zkdf).exitCode = 2 ∧
    (mainRun ["00", "1000", "48"] [97, 10] 0 (fun _ => true) true
      zkdf).exitCode = 0 := by
  refine ⟨?_, ?_, ?_, ?_, ?_, ?_, ?_, ?_⟩
  · exact claim_C9_exit_codes.1 ["00", "1000"] [10] 0 (fun _ => true) true
      zkdf (by decide)
  · exact claim_C9_exit_codes.2.1 "zz" "1000" "48" [10] 0 (fun _ => true)
      true zkdf (Or.inl (by decide))
  · exact claim_C9_exit_codes.2.2.1 "00" "x9" "48" [97, 10] 0
      (fun _ => true) true zkdf [0] (by decide) (by decide)
      (Or.inl (by decide))
  · exact claim_C9_exit_codes.2.2.2.1 "00" "5" "abc" [97, 10] 0
      (fun _ => true) true zkdf [0] 5 (by decide) (by decide) (by decide)
      (by decide) (Or.inl (by decide))
  · exact (claim_C9_exit_codes.2.2.2.2.1 "00" "1000" "48" [10] 0
      (fun _ => true) true zkdf [0] 1000 48
      { buf := [10], buffLen := 40, reallocs := 0, lost := [] }
      (by decide) (by decide) (by decide) (by decide) (by decide) (by decide)
      (by decide) (by decide)).1
  · exact claim_C9_exit_codes.2.2.2.2.2.1 "00" "1000" "48"
      (List.replicate 41 97) 0 (fun _ => false) true zkdf [0] 1000 48
      { buf := List.replicate 40 97, buffLen := 40, reallocs := 0,
        lost := [List.replicate 40 97] }
      (by decide) (by decide) (by decide) (by decide) (by decide) (by decide)
      (by decide)
  · exact claim_C9_exit_codes.2.2.2.2.2.2.1 "00" "1000" "48" [97, 10] 0
      (fun _ => true) zkdf [0] 1000 48
      { buf := [97, 10], buffLen := 40, reallocs := 0, lost := [] }
      (by decide) (by decide) (by decide) (by decide) (by decide) (by decide)
      (by decide) (by decide)
  · exact (claim_C9_exit_codes.2.2.2.2.2.2.2 "00" "1000" "48" [97, 10] 0
      (fun _ => true) zkdf [0] 1000 48
      { buf := [97, 10], buffLen := 40, reallocs := 0, lost := [] }
      (by decide) (by decide) (by decide) (by decide) (by decide) (by decide)
      (by decide) (by decide)).1

/-- Claim C10 (confirmed): a one-byte stdin — whatever the byte — is
rejected as an empty passphrase with exit code 1 and no derivation,
because the final byte is stripped unconditionally. -/
theorem claim_C10_single_byte_rejected (b : Nat) (a1 a2 a3 : String)
    (uninit : Int) (rok : Nat → Bool) (g : Bool)
    (kdf : List Nat → List Nat → Int → Int → List Nat)
    (s : List Nat) (v2 v3 : Int)
    (h1 : hex_to_binary a1.toList = some s) (h2 : s ≠ [])
    (h3 : sscanf_d a2.toList = ScanD.ok v2) (h4 : 0 < v2)
    (h5 : sscanf_d a3.toList = ScanD.ok v3) (h6 : 0 < v3) :
    (mainRun [a1, a2, a3] [b] uninit rok g kdf).err = some ErrKind.emptyPass ∧
    (mainRun [a1, a2, a3] [b] uninit rok g kdf).exitCode = 1 ∧
    (mainRun [a1, a2, a3] [b] uninit rok g kdf).kdfCall = none := by
  rw [mainRun_empty_pass a1 a2 a3 [b] uninit rok g kdf s v2 v3
    h1 h2 h3 h4 h5 h6 (by simp)]
  exact ⟨rfl, rfl, rfl⟩

/-- Witness for C10 at the single byte 0x61, the letter a with no
newline. -/
theorem claim_C10_witness :
    (mainRun ["00", "1000", "48"] [97] 0 (fun _ => true) true zkdf).err
        = some ErrKind.emptyPass ∧
    (mainRun ["00", "1000", "48"] [97] 0 (fun _ => true) true zkdf).exitCode
        = 1 ∧
    (mainRun ["00", "1000", "48"] [97] 0 (fun _ => true) true zkdf).kdfCall
        = none :=
  claim_C10_single_byte_rejected 97 "00" "1000" "48" 0 (fun _ => true) true
    zkdf [0] 1000 48 (by decide) (by decide) (by decide) (by decide)
    (by decide) (by decide)
